import Mathlib

/-!
Verification development for the LTS-Quality-Management analytics engine.

The definitions below are a shallow embedding of the Python sources:
`src/ml_engine/feature_engineering.py` (FeatureEngineer),
`src/ml_engine/pattern_recognition.py` (PatternAnalyzer),
`src/ml_engine/customer_abuse_detection.py` (CustomerAbuseDetector) and
`src/ml_engine/risk_model.py` (DriverRiskModel), with configuration constants
taken from `src/config.py`.

Modelling conventions:
* A `delivery_date_time` value is modelled as minutes since an epoch (`Int`).
  `timedelta(days=w)` becomes `1440 * w` minutes; `.dt.date` is `fdiv` by
  1440, `.dt.hour` the hour within the day, `.dt.dayofweek` the epoch day
  modulo 7 (weekend when it is 5 or 6, matching `isin([5, 6])`).
  Rows whose timestamp fails `pd.to_datetime(..., errors='coerce')` become
  `NaT` in the source and compare false against every window bound, so they
  take part in no window; such rows are simply absent from the model.
* Real-valued features are modelled as `ℚ`.  The source's
  `pandas.std()` (used for `delivery_count_variance` and `volatility_index`)
  and the z-score scale in `detect_anomalies` are square roots of sample
  variances; the model stores the sample variance itself (the square of the
  source value, zero exactly when the source value is zero, and a positive
  per-column rescaling of the anomaly scale, to which the proved claims are
  insensitive).
* Optional dataframe columns (`concession_type`, `contact_made`) are
  modelled by per-table presence flags, matching the source's
  `if col in df.columns` checks; a division by zero cannot arise where the
  source guards it, and `Rat` division by zero yields 0, which agrees with
  the `fillna(0)` / `replace(inf, 0)` post-processing of
  `FeatureEngineer._handle_missing_values`.
-/

namespace LTSQM

/-- Record of one delivery attempt, one row of the raw event table
(`transporter_id`, `delivery_date_time`, optional `concession_type`,
optional `contact_made`, optional `address_id`). -/
structure Event where
  transporter_id : String
  dt : Int
  concession_type : Option String
  contact_made : Option Bool
  address_id : Option String
deriving DecidableEq, Repr

/-- An event table: the rows plus presence flags for the optional columns,
mirroring the source's `if column in df.columns` duck typing. -/
structure EventTable where
  rows : List Event
  hasConcessionType : Bool
  hasContactMade : Bool
deriving DecidableEq, Repr

/-- Minutes per day; `timedelta(days=w)` is `minutesPerDay * w` minutes. -/
def minutesPerDay : Int := 1440

/-- Calendar day of an event (`df['date'] = dt.date` in `_prepare_data`). -/
def Event.day (e : Event) : Int := e.dt.fdiv minutesPerDay

/-- Hour of the day of an event (`df['hour'] = dt.hour`). -/
def Event.hour (e : Event) : Int := (e.dt.emod minutesPerDay).fdiv 60

/-- Day of week of an event (`df['dayofweek'] = dt.dayofweek`). -/
def Event.dayofweek (e : Event) : Int := e.day.emod 7

/-- Weekend flag (`df['is_weekend'] = dayofweek.isin([5, 6])`). -/
def Event.isWeekend (e : Event) : Bool := e.dayofweek == 5 || e.dayofweek == 6

/-- Concession flag from `_prepare_data`: when the `concession_type` column
exists, `notna() & (!= '')`; otherwise all false. -/
def isConcession (tbl : EventTable) (e : Event) : Bool :=
  tbl.hasConcessionType &&
    match e.concession_type with
    | some s => s != ""
    | none => false

/-- Mean of a list of rationals (`Series.mean`); 0 on the empty list via
`Rat` division by zero, matching the guarded uses in the source. -/
def meanQ (l : List ℚ) : ℚ := l.sum / l.length

/-- Sample variance (`ddof = 1`) of a list of rationals: the square of
`pandas.Series.std()`. -/
def sampleVar (l : List ℚ) : ℚ :=
  (l.map (fun v => (v - meanQ l) ^ 2)).sum / ((l.length : ℚ) - 1)

/-- Configured time windows from `FeatureConfig.time_windows`. -/
def timeWindows : List ℕ := [7, 14, 30, 60, 90]

/-- Concession type values from `ColumnConfig.CONCESSION_TYPES`. -/
def concessionTypes : List String :=
  ["neighbor", "safe_location", "mailbox", "household_member", "receptionist", "other"]

/-- Rows of a window filter `df[df[DELIVERY_DATE] >= ref_date - timedelta(days=w)]`
as used throughout `FeatureEngineer`. -/
def windowRows (rows : List Event) (ref : Int) (w : ℕ) : List Event :=
  rows.filter (fun e => decide (ref - minutesPerDay * (w : Int) ≤ e.dt))

/-- The rows of one driver, `df[df['transporter_id'] == transporter_id]`. -/
def driverRows (tbl : EventTable) (d : String) : List Event :=
  tbl.rows.filter (fun e => e.transporter_id == d)

/-- `delivery_count_{w}d` of `_compute_historical_rates`: size of the window. -/
def deliveryCountF (rows : List Event) (ref : Int) (w : ℕ) : ℕ :=
  (windowRows rows ref w).length

/-- `concession_count_{w}d` of `_compute_historical_rates`. -/
def concessionCountF (tbl : EventTable) (rows : List Event) (ref : Int) (w : ℕ) : ℕ :=
  (windowRows rows ref w).countP (isConcession tbl)

/-- `concession_rate_{w}d` of `_compute_historical_rates`:
`concessions / total if total > 0 else 0`. -/
def concessionRateF (tbl : EventTable) (rows : List Event) (ref : Int) (w : ℕ) : ℚ :=
  let total := deliveryCountF rows ref w
  if 0 < total then (concessionCountF tbl rows ref w : ℚ) / (total : ℚ) else 0

/-- Maximum run of `False` values: the `no_contact` streak scan of
`_compute_contact_features`, which walks the window rows in their current
order (the source applies no sort before this loop). -/
def maxRun (l : List Bool) : ℕ :=
  (l.foldl
    (fun st b =>
      if b then (0, st.2) else (st.1 + 1, max st.2 (st.1 + 1)))
    ((0, 0) : ℕ × ℕ)).2

/-- Result triple of `_compute_performance_features`:
(`avg_daily_deliveries`, `delivery_count_variance` as sample variance,
`active_days_ratio`), zero when the 30-day window is empty. -/
def performanceOf (rows : List Event) (ref : Int) : ℚ × ℚ × ℚ :=
  let win := windowRows rows ref 30
  if win.length = 0 then (0, 0, 0)
  else
    let ds := (win.map Event.day).dedup
    let counts : List ℚ := ds.map (fun d => ((win.countP (fun e => e.day == d) : ℕ) : ℚ))
    let avg := meanQ counts
    let var := if 1 < counts.length then sampleVar counts else 0
    (avg, var, (ds.length : ℚ) / 30)

/-- Result triple of `_compute_contact_features`:
(`contact_success_rate`, `no_contact_streak_max`, `contact_improvement_trend`).
Contacts are `contact_made.fillna(False)` over the 30-day window, in input
row order. -/
def contactOf (tbl : EventTable) (rows : List Event) (ref : Int) : ℚ × ℕ × ℚ :=
  if ¬tbl.hasContactMade then (0, 0, 0)
  else
    let win := windowRows rows ref 30
    if win.length = 0 then (0, 0, 0)
    else
      let contacts : List Bool := win.map (fun e => e.contact_made.getD false)
      let rate : ℚ := (contacts.countP id : ℚ) / (contacts.length : ℚ)
      let streak := maxRun contacts
      let improve : ℚ :=
        if 10 ≤ contacts.length then
          let half := contacts.length / 2
          let hd := contacts.take half
          let tl := contacts.drop half
          (tl.countP id : ℚ) / (tl.length : ℚ) - (hd.countP id : ℚ) / (hd.length : ℚ)
        else 0
      (rate, streak, improve)

/-- Modal value of a list: the element with the largest count, ties broken
by first appearance — the behaviour of `value_counts().idxmax()` /
`value_counts().index[0]`. -/
def firstModal (l : List Int) : Int :=
  l.dedup.foldl (fun best v => if l.count best < l.count v then v else best)
    (l.dedup.headD 0)

/-- Result of `_compute_time_patterns`: (`morning_peak_ratio`,
`evening_peak_ratio`, `weekend_ratio`, `weekday_with_most_concessions`,
`hour_with_most_concessions`); defaults `(0, 0, 0, 0, 12)` when there are no
concessions in the 30-day window.  Peak bands are `morning_peak = (6, 9)` and
`evening_peak = (17, 20)` from `FeatureConfig`. -/
def timePatternsOf (tbl : EventTable) (rows : List Event) (ref : Int) :
    ℚ × ℚ × ℚ × Int × Int :=
  let win := windowRows rows ref 30
  let conc := win.filter (isConcession tbl)
  if conc.length = 0 then (0, 0, 0, 0, 12)
  else
    let n : ℚ := (conc.length : ℚ)
    let morning := conc.countP (fun e => decide (6 ≤ e.hour) && decide (e.hour < 9))
    let evening := conc.countP (fun e => decide (17 ≤ e.hour) && decide (e.hour < 20))
    let wk := conc.countP Event.isWeekend
    ((morning : ℚ) / n, (evening : ℚ) / n, (wk : ℚ) / n,
      firstModal (conc.map Event.dayofweek), firstModal (conc.map Event.hour))

/-- Result of `_compute_trend_features`: (`rate_trend_7d`, `rate_trend_30d`,
`volatility_index` as sample variance, `improving_flag`); zeros when the
60-day window holds fewer than 14 rows or fewer than 7 distinct days. -/
def trendOf (tbl : EventTable) (rows : List Event) (ref : Int) : ℚ × ℚ × ℚ × ℚ :=
  let win := windowRows rows ref 60
  if win.length < 14 then (0, 0, 0, 0)
  else
    let ds := List.insertionSort (· ≤ ·) (win.map Event.day).dedup
    let rates : List ℚ := ds.map (fun d =>
      ((win.countP (fun e => e.day == d && isConcession tbl e) : ℕ) : ℚ) /
        ((win.countP (fun e => e.day == d) : ℕ) : ℚ))
    if rates.length < 7 then (0, 0, 0, 0)
    else
      let recent7 := meanQ (rates.drop (rates.length - 7))
      let prev7 :=
        if 14 ≤ rates.length then meanQ ((rates.drop (rates.length - 14)).take 7)
        else recent7
      let t7 := recent7 - prev7
      let t30 :=
        if 30 ≤ rates.length then
          let recent30 := meanQ (rates.drop (rates.length - 30))
          let prev30 :=
            if 60 ≤ rates.length then meanQ ((rates.drop (rates.length - 60)).take 30)
            else meanQ (rates.take 30)
          recent30 - prev30
        else 0
      (t7, t30, sampleVar rates, if t7 < 0 then 1 else 0)

/-- One `pct_{ctype}` feature of `_compute_concession_types`: share of the
30-day concessions having the given type; 0 for types outside
`CONCESSION_TYPES`, when the column is absent, or with no concessions. -/
def pctTypeOf (tbl : EventTable) (rows : List Event) (ref : Int) (t : String) : ℚ :=
  if ¬tbl.hasConcessionType then 0
  else if t ∉ concessionTypes then 0
  else
    let conc := (windowRows rows ref 30).filter (isConcession tbl)
    if conc.length = 0 then 0
    else (conc.countP (fun e => e.concession_type == some t) : ℚ) / (conc.length : ℚ)

/-- Feature vector of one driver: the numeric columns of the frame built by
`FeatureEngineer.transform`.  The per-window features are functions of the
window length; `transform` materialises them at `timeWindows`. -/
structure DriverFeatures where
  concessionRate : ℕ → ℚ
  concessionCount : ℕ → ℕ
  deliveryCount : ℕ → ℕ
  avgDailyDeliveries : ℚ
  deliveryCountVariance : ℚ
  activeDaysShare : ℚ
  contactSuccessRate : ℚ
  noContactStreakMax : ℕ
  contactImprovementTrend : ℚ
  morningPeakShare : ℚ
  eveningPeakShare : ℚ
  weekendShare : ℚ
  weekdayWithMostConcessions : Int
  hourWithMostConcessions : Int
  rateTrend7d : ℚ
  rateTrend30d : ℚ
  volatilityIndex : ℚ
  improvingFlag : ℚ
  pctType : String → ℚ

/-- All features of one driver, `FeatureEngineer._compute_driver_features`
applied to the rows of that driver. -/
def computeDriverFeatures (tbl : EventTable) (rows : List Event) (ref : Int) :
    DriverFeatures :=
  let perf := performanceOf rows ref
  let contact := contactOf tbl rows ref
  let timep := timePatternsOf tbl rows ref
  let trend := trendOf tbl rows ref
  { concessionRate := fun w => concessionRateF tbl rows ref w
    concessionCount := fun w => concessionCountF tbl rows ref w
    deliveryCount := fun w => deliveryCountF rows ref w
    avgDailyDeliveries := perf.1
    deliveryCountVariance := perf.2.1
    activeDaysShare := perf.2.2
    contactSuccessRate := contact.1
    noContactStreakMax := contact.2.1
    contactImprovementTrend := contact.2.2
    morningPeakShare := timep.1
    eveningPeakShare := timep.2.1
    weekendShare := timep.2.2.1
    weekdayWithMostConcessions := timep.2.2.2.1
    hourWithMostConcessions := timep.2.2.2.2
    rateTrend7d := trend.1
    rateTrend30d := trend.2.1
    volatilityIndex := trend.2.2.1
    improvingFlag := trend.2.2.2
    pctType := fun t => pctTypeOf tbl rows ref t }

/-- Features of a named driver, as placed in the output frame. -/
def featuresFor (tbl : EventTable) (d : String) (ref : Int) : DriverFeatures :=
  computeDriverFeatures tbl (driverRows tbl d) ref

/-- `FeatureEngineer.transform`: one feature row per requested driver,
indexed by `transporter_id`.  The `reference_date` and driver-list defaults
of the source (max timestamp, all distinct drivers) are supplied by the
caller here; `_handle_missing_values` is the identity over `ℚ`. -/
def transform (tbl : EventTable) (ref : Int) (drivers : List String) :
    List (String × DriverFeatures) :=
  drivers.map (fun d => (d, featuresFor tbl d ref))

/-- Feature row produced for a driver with no events: all counts and rates
zero, modal weekday 0 and modal hour 12. -/
def defaultFeatures : DriverFeatures :=
  { concessionRate := fun _ => 0
    concessionCount := fun _ => 0
    deliveryCount := fun _ => 0
    avgDailyDeliveries := 0
    deliveryCountVariance := 0
    activeDaysShare := 0
    contactSuccessRate := 0
    noContactStreakMax := 0
    contactImprovementTrend := 0
    morningPeakShare := 0
    eveningPeakShare := 0
    weekendShare := 0
    weekdayWithMostConcessions := 0
    hourWithMostConcessions := 12
    rateTrend7d := 0
    rateTrend30d := 0
    volatilityIndex := 0
    improvingFlag := 0
    pctType := fun _ => 0 }

/-! ### Pattern Analyzer (`src/ml_engine/pattern_recognition.py`) -/

/-- Time pattern value object produced by `PatternAnalyzer.detect_time_patterns`:
its `pattern_type`, `confidence` and the peak weekday/hour from `details`. -/
structure TimePattern where
  ptype : String
  confidence : ℚ
  peak : Int
deriving DecidableEq, Repr

/-- Optional per-driver restriction applied at the top of the pattern
functions (`if transporter_id: df = df[df['transporter_id'] == ...]`). -/
def filteredRows (tbl : EventTable) (tid : Option String) : List Event :=
  match tid with
  | some t => tbl.rows.filter (fun e => e.transporter_id == t)
  | none => tbl.rows

/-- `PatternAnalyzer.detect_time_patterns`: empty below 10 rows, empty below
5 concessions, otherwise the weekday-concentration (share > 0.25), peak-hour
(share > 0.15) and weekend-difference (gap > 0.1) flags, each with the
measured proportion as confidence. -/
def detectTimePatterns (tbl : EventTable) (tid : Option String) : List TimePattern :=
  let rows := filteredRows tbl tid
  if rows.length < 10 then []
  else
    let conc := rows.filter (isConcession tbl)
    if conc.length < 5 then []
    else
      let dowl := conc.map Event.dayofweek
      let dmod := firstModal dowl
      let dpct : ℚ := (dowl.count dmod : ℚ) / (dowl.length : ℚ)
      let p1 := if (1 / 4 : ℚ) < dpct then [TimePattern.mk "weekday_concentration" dpct dmod] else []
      let hrl := conc.map Event.hour
      let hmod := firstModal hrl
      let hpct : ℚ := (hrl.count hmod : ℚ) / (hrl.length : ℚ)
      let p2 := if (3 / 20 : ℚ) < hpct then [TimePattern.mk "peak_hour" hpct hmod] else []
      let wr : ℚ := (conc.countP Event.isWeekend : ℚ) / (conc.length : ℚ)
      let tr : ℚ := (rows.countP Event.isWeekend : ℚ) / (rows.length : ℚ)
      let p3 := if (1 / 10 : ℚ) < |wr - tr| then [TimePattern.mk "weekend_difference" (|wr - tr|) 0] else []
      p1 ++ p2 ++ p3

/-- Feature table consumed by `detect_anomalies`: row index, numeric data
matrix, and the number of numeric feature columns. -/
structure FeatureTable where
  ids : List String
  data : List (List ℚ)
  ncols : ℕ
deriving Repr

/-- Anomaly value object: the flagged driver and its deviation score. -/
structure AnomalyR where
  transporter_id : String
  score : ℚ
deriving DecidableEq, Repr

/-- Values of one feature column of the table. -/
def colVals (ft : FeatureTable) (j : ℕ) : List ℚ :=
  ft.data.map (fun r => r.getD j 0)

/-- Absolute z-score of one cell, `abs((x - mean) / std)`; the sample
variance stands in for the standard deviation as the (positive) scale. -/
def zscore (ft : FeatureTable) (j : ℕ) (x : ℚ) : ℚ :=
  |x - meanQ (colVals ft j)| / sampleVar (colVals ft j)

/-- Per-row anomaly score: `z_scores.mean(axis=1)`. -/
def rowScore (ft : FeatureTable) (r : List ℚ) : ℚ :=
  meanQ ((List.range ft.ncols).map (fun j => zscore ft j (r.getD j 0)))

/-- The population anomaly scores, one per row. -/
def anomalyScores (ft : FeatureTable) : List ℚ :=
  ft.data.map (rowScore ft)

/-- Interpolation index of `pandas.Series.quantile`: the floor of the
position `(n - 1) * q` within the sorted values. -/
def quantileIdx (l : List ℚ) (q : ℚ) : ℕ :=
  (⌊((l.length : ℚ) - 1) * q⌋).toNat

/-- `pandas.Series.quantile` with linear interpolation: position
`(n - 1) * q` in the sorted values, interpolating between the neighbouring
order statistics. -/
def quantileQ (l : List ℚ) (q : ℚ) : ℚ :=
  (List.insertionSort (· ≤ ·) l).getD (quantileIdx l q) 0 +
    (((l.length : ℚ) - 1) * q - (quantileIdx l q : ℚ)) *
      ((List.insertionSort (· ≤ ·) l).getD (quantileIdx l q + 1) 0 -
        (List.insertionSort (· ≤ ·) l).getD (quantileIdx l q) 0)

/-- Anomaly threshold of `detect_anomalies`:
`anomaly_scores.quantile(1 - contamination)`. -/
def anomalyThreshold (ft : FeatureTable) (contamination : ℚ) : ℚ :=
  quantileQ (anomalyScores ft) (1 - contamination)

/-- `PatternAnalyzer.detect_anomalies`: empty below 10 rows or with no
numeric columns; otherwise flags the rows whose mean absolute z-score is
strictly above the `(1 - contamination)` population quantile. -/
def detectAnomalies (ft : FeatureTable) (contamination : ℚ) : List AnomalyR :=
  if ft.data.length < 10 then []
  else if ft.ncols = 0 then []
  else
    (ft.ids.zip (anomalyScores ft)).filterMap
      (fun p =>
        if anomalyThreshold ft contamination < p.2 then some (AnomalyR.mk p.1 p.2)
        else none)

/-! ### Abuse Detector (`src/ml_engine/customer_abuse_detection.py`) -/

/-- Abuse pattern value object: `pattern_type`, `severity`, `confidence`. -/
structure AbusePatternR where
  ptype : String
  severity : String
  confidence : ℚ
deriving DecidableEq, Repr

/-- Distinct drivers of a location group, `group['transporter_id'].nunique()`. -/
def uniqueDrivers (g : List Event) : ℕ :=
  ((g.map Event.transporter_id).dedup).length

/-- Distinct drivers having a concession at the location,
`group[group['is_concession']]['transporter_id'].unique()`. -/
def driversWithConcessions (tbl : EventTable) (g : List Event) : List String :=
  ((g.filter (isConcession tbl)).map Event.transporter_id).dedup

/-- Concession type values of the location's concession rows
(`value_counts()` input of the profile and of `_calculate_abuse_score`). -/
def concTypeVals (tbl : EventTable) (g : List Event) : List String :=
  (g.filter (isConcession tbl)).filterMap Event.concession_type

/-- `CustomerAbuseDetector._calculate_abuse_score` applied to a location
group: rate part `min(rate*80, 40)`, count part `min(concessions*4, 20)`,
multi-driver part `min((unique_drivers - 1)*10, 20)` — added regardless of
the concession count — and the type-concentration part (20 at ≥ 0.8,
10 at ≥ 0.6), clipped at 100. -/
def abuseScoreOf (tbl : EventTable) (g : List Event) : ℚ :=
  let conc := g.countP (isConcession tbl)
  let rate : ℚ := (conc : ℚ) / (g.length : ℚ)
  let base := min (rate * 80) 40 + min ((conc : ℚ) * 4) 20 +
    min (((uniqueDrivers g : ℚ) - 1) * 10) 20
  let types := concTypeVals tbl g
  let tc : ℚ :=
    if types.isEmpty then 0
    else
      let mx := (types.dedup.map (fun t => types.count t)).foldr max 0
      let concn : ℚ := (mx : ℚ) / (types.length : ℚ)
      if (4 / 5 : ℚ) ≤ concn then 20 else if (3 / 5 : ℚ) ≤ concn then 10 else 0
  min (base + tc) 100

/-- High-frequency block (pattern 1) of `_analyze_addresses`: fires at
rate ≥ `critical_concession_threshold` (0.50) with ≥ 3 concessions — not at
the `high_concession_threshold` (0.30), which the source uses only for the
profile's `is_suspicious` flag and the tracking fallback; the severity is
critical at rate ≥ 0.70, else high; the confidence is `min(rate, 1)`. -/
def hfPatterns (tbl : EventTable) (g : List Event) : List AbusePatternR :=
  if (1 / 2 : ℚ) ≤ (g.countP (isConcession tbl) : ℚ) / (g.length : ℚ) ∧
      3 ≤ g.countP (isConcession tbl) then
    [AbusePatternR.mk "high_frequency"
      (if (7 / 10 : ℚ) ≤ (g.countP (isConcession tbl) : ℚ) / (g.length : ℚ)
        then "critical" else "high")
      (min ((g.countP (isConcession tbl) : ℚ) / (g.length : ℚ)) 1)]
  else []

/-- Multi-driver block (pattern 2) of `_analyze_addresses`: ≥ 2 distinct
drivers at the location, ≥ 3 concessions, and ≥ 2 distinct drivers with a
concession; severity high at ≥ 3 such drivers, else medium. -/
def mdPatterns (tbl : EventTable) (g : List Event) : List AbusePatternR :=
  if 2 ≤ uniqueDrivers g ∧ 3 ≤ g.countP (isConcession tbl) then
    if 2 ≤ (driversWithConcessions tbl g).length then
      [AbusePatternR.mk "multi_driver"
        (if 3 ≤ (driversWithConcessions tbl g).length then "high" else "medium")
        (min (((driversWithConcessions tbl g).length : ℚ) / 5) 1)]
    else []
  else []

/-- Same-day repeat block (pattern 3) of `_analyze_addresses`: ≥ 3
concession rows whose calendar dates contain a repeat. -/
def rpPatterns (tbl : EventTable) (g : List Event) : List AbusePatternR :=
  if 3 ≤ ((g.filter (isConcession tbl)).map Event.day).length ∧
      ((g.filter (isConcession tbl)).map Event.day).dedup.length <
        ((g.filter (isConcession tbl)).map Event.day).length then
    [AbusePatternR.mk "repeat_concession" "high" (8 / 10)]
  else []

/-- Patterns produced for one analyzed location by
`CustomerAbuseDetector._analyze_addresses`: the three pattern blocks in
source order. -/
def addressPatterns (tbl : EventTable) (g : List Event) : List AbusePatternR :=
  hfPatterns tbl g ++ mdPatterns tbl g ++ rpPatterns tbl g

/-- Per-location analysis step of `_analyze_addresses`: locations with fewer
than `min_deliveries_for_analysis = 3` events are skipped (`none`);
otherwise the abuse score of the profile and the fired patterns. -/
def analyzeAddress (tbl : EventTable) (g : List Event) :
    Option (ℚ × List AbusePatternR) :=
  if g.length < 3 then none
  else some (abuseScoreOf tbl g, addressPatterns tbl g)

/-! ### Risk Model (`src/ml_engine/risk_model.py`) -/

/-- Persisted state of `DriverRiskModel` after `train`: the training feature
names, the fitted `StandardScaler` statistics (population mean and variance
per column) and the trained flag. -/
structure TrainedModel where
  featureNames : List String
  scalerMean : List ℚ
  scalerVar : List ℚ
  isTrained : Bool
deriving DecidableEq, Repr

/-- Population mean and variance of column `j` of the training matrix, the
statistics fitted by `StandardScaler` (`ddof = 0`). -/
def scalerStats (x : List (List ℚ)) (j : ℕ) : ℚ × ℚ :=
  let c := x.map (fun r => r.getD j 0)
  (meanQ c, (c.map (fun v => (v - meanQ c) ^ 2)).sum / (c.length : ℚ))

/-- Errors surfacing from `DriverRiskModel.train`.  `labelDiversity` stands
for the dedicated `LabelDiversityError` that the spec's error taxonomy
demands; it is modelled from the spec because no such error exists anywhere
in the repository, and the theorems show `train` never produces it.
`singleClassLibraryError` stands for the generic `ValueError` that a label
vector with fewer than two distinct classes provokes inside the external
library calls — `XGBClassifier.fit` rejects a single-class `y`, and failing
that `roc_auc_score` (risk_model.py line 139) raises on the single-class
held-out labels — before `is_trained = True` (line 144) is reached. -/
inductive TrainError where
  | labelDiversity : TrainError
  | singleClassLibraryError : TrainError
deriving DecidableEq, Repr

/-- `DriverRiskModel.train`: records the feature names (`list(X.columns)`)
and fits the `StandardScaler` on the full matrix (lines 95-100), then hands
the data to the external stratified-split/fit/score calls.  The body
performs no validation of the label vector `y` of its own — no
label-diversity check and no raise statement.  A label vector with fewer
than two distinct classes makes those external calls raise a generic
`ValueError`, so training does not complete and `is_trained` stays false;
the error is a library one, never a `LabelDiversityError`.  Other library
preconditions (minimum class sizes for the stratified split and the
cross-validation) are independent of the label-diversity claim and are not
modelled; no theorem of this development relies on the success branch. -/
def trainModel (cols : List String) (x : List (List ℚ)) (y : List Bool) :
    Except TrainError TrainedModel :=
  if y.dedup.length < 2 then Except.error TrainError.singleClassLibraryError
  else
    Except.ok
      { featureNames := cols
        scalerMean := (List.range cols.length).map (fun j => (scalerStats x j).1)
        scalerVar := (List.range cols.length).map (fun j => (scalerStats x j).2)
        isTrained := true }

/-- Errors that `DriverRiskModel.predict` can surface: the explicit
`ValueError` before training, and the pandas `KeyError` from
`X[self.feature_names]` when a trained column is missing. -/
inductive PredictError where
  | notTrained : PredictError
  | missingColumn : PredictError
deriving DecidableEq, Repr

/-- Column selection `X[self.feature_names]` of `predict`: fails iff some
trained feature name is absent from the input; otherwise yields the trained
names in training order, silently dropping extra input columns. -/
def selectColumns (names cols : List String) : Option (List String) :=
  if ∀ n ∈ names, n ∈ cols then some names else none

/-- Schema phase of `DriverRiskModel.predict`: the not-trained guard
followed by the column selection. -/
def predictSchema (m : TrainedModel) (cols : List String) :
    Except PredictError (List String) :=
  if ¬m.isTrained then Except.error PredictError.notTrained
  else
    match selectColumns m.featureNames cols with
    | some ordered => Except.ok ordered
    | none => Except.error PredictError.missingColumn

/-! ### Helper lemmas -/

/-- Windows are nested: a longer lookback admits every timestamp a shorter
one admits. -/
lemma windowPred_mono {w1 w2 : ℕ} (h : w1 ≤ w2) (ref : Int) (e : Event)
    (hp : decide (ref - minutesPerDay * (w1 : Int) ≤ e.dt) = true) :
    decide (ref - minutesPerDay * (w2 : Int) ≤ e.dt) = true := by
  simp only [decide_eq_true_eq] at hp ⊢
  have h2 : (w1 : Int) ≤ (w2 : Int) := by exact_mod_cast h
  have : minutesPerDay * (w1 : Int) ≤ minutesPerDay * (w2 : Int) := by
    unfold minutesPerDay; omega
  omega

/-- Monotonicity of the per-window delivery count in the window length. -/
lemma deliveryCountF_mono (rows : List Event) (ref : Int) {w1 w2 : ℕ}
    (h : w1 ≤ w2) : deliveryCountF rows ref w1 ≤ deliveryCountF rows ref w2 := by
  unfold deliveryCountF windowRows
  rw [← List.countP_eq_length_filter, ← List.countP_eq_length_filter]
  exact List.countP_mono_left (fun e _ hp => windowPred_mono h ref e hp)

/-- Monotonicity of the per-window concession count in the window length. -/
lemma concessionCountF_mono (tbl : EventTable) (rows : List Event) (ref : Int)
    {w1 w2 : ℕ} (h : w1 ≤ w2) :
    concessionCountF tbl rows ref w1 ≤ concessionCountF tbl rows ref w2 := by
  unfold concessionCountF windowRows
  rw [List.countP_filter, List.countP_filter]
  refine List.countP_mono_left (fun e _ hp => ?_)
  simp only [Bool.and_eq_true] at hp ⊢
  exact ⟨hp.1, windowPred_mono h ref e hp.2⟩

/-- Quotients of a count by a larger count lie in the unit interval; with a
zero denominator (forcing a zero numerator) `Rat` division yields 0. -/
lemma unit_div {a b : ℕ} (h : a ≤ b) : 0 ≤ (a : ℚ) / (b : ℚ) ∧ (a : ℚ) / (b : ℚ) ≤ 1 := by
  constructor
  · exact div_nonneg (by positivity) (by positivity)
  · rcases Nat.eq_zero_or_pos b with hb | hb
    · have ha : a = 0 := by omega
      simp [ha, hb]
    · rw [div_le_one (by exact_mod_cast hb)]
      exact_mod_cast h

/-- Membership in `transform` output determines the feature row. -/
lemma mem_transform {tbl : EventTable} {ref : Int} {drivers : List String}
    {d : String} {f : DriverFeatures}
    (hmem : (d, f) ∈ transform tbl ref drivers) : f = featuresFor tbl d ref := by
  unfold transform at hmem
  obtain ⟨a, _, ha⟩ := List.mem_map.mp hmem
  obtain ⟨h1, h2⟩ := Prod.mk.injEq .. ▸ ha
  exact h2.symm.trans (by rw [h1])

/-! ### C1: window-inclusion monotonicity of the per-window counts -/

/-- C1: in every feature table produced by `FeatureEngineer.transform`, the
delivery count and the concession count of a driver are monotone in the
window length across the configured 7/14/30/60/90-day windows. -/
theorem c1_window_inclusion_monotone (tbl : EventTable) (ref : Int)
    (drivers : List String) (d : String) (f : DriverFeatures)
    (hmem : (d, f) ∈ transform tbl ref drivers) :
    (f.deliveryCount 7 ≤ f.deliveryCount 14 ∧ f.deliveryCount 14 ≤ f.deliveryCount 30 ∧
      f.deliveryCount 30 ≤ f.deliveryCount 60 ∧ f.deliveryCount 60 ≤ f.deliveryCount 90) ∧
    (f.concessionCount 7 ≤ f.concessionCount 14 ∧ f.concessionCount 14 ≤ f.concessionCount 30 ∧
      f.concessionCount 30 ≤ f.concessionCount 60 ∧ f.concessionCount 60 ≤ f.concessionCount 90) := by
  have hf := mem_transform hmem
  subst hf
  refine ⟨⟨?_, ?_, ?_, ?_⟩, ⟨?_, ?_, ?_, ?_⟩⟩ <;>
    first
      | exact deliveryCountF_mono _ _ (by norm_num)
      | exact concessionCountF_mono _ _ _ (by norm_num)

/-- Witness for C1 at a one-row table. -/
def c1Tbl : EventTable :=
  ⟨[⟨"A", 0, some "neighbor", none, none⟩], true, false⟩

/-- Witness: C1 instantiated at a concrete table and driver. -/
theorem c1_witness :
    ((featuresFor c1Tbl "A" 0).deliveryCount 7 ≤ (featuresFor c1Tbl "A" 0).deliveryCount 14 ∧
      (featuresFor c1Tbl "A" 0).deliveryCount 14 ≤ (featuresFor c1Tbl "A" 0).deliveryCount 30 ∧
      (featuresFor c1Tbl "A" 0).deliveryCount 30 ≤ (featuresFor c1Tbl "A" 0).deliveryCount 60 ∧
      (featuresFor c1Tbl "A" 0).deliveryCount 60 ≤ (featuresFor c1Tbl "A" 0).deliveryCount 90) ∧
    ((featuresFor c1Tbl "A" 0).concessionCount 7 ≤ (featuresFor c1Tbl "A" 0).concessionCount 14 ∧
      (featuresFor c1Tbl "A" 0).concessionCount 14 ≤ (featuresFor c1Tbl "A" 0).concessionCount 30 ∧
      (featuresFor c1Tbl "A" 0).concessionCount 30 ≤ (featuresFor c1Tbl "A" 0).concessionCount 60 ∧
      (featuresFor c1Tbl "A" 0).concessionCount 60 ≤ (featuresFor c1Tbl "A" 0).concessionCount 90) :=
  c1_window_inclusion_monotone c1Tbl 0 ["A"] "A" (featuresFor c1Tbl "A" 0)
    (by simp [transform])

/-! ### C2: rate features lie in the unit interval -/

/-- Per-window concession rate lies in `[0, 1]`. -/
lemma concessionRateF_unit (tbl : EventTable) (rows : List Event) (ref : Int)
    (w : ℕ) : 0 ≤ concessionRateF tbl rows ref w ∧ concessionRateF tbl rows ref w ≤ 1 := by
  by_cases h : 0 < deliveryCountF rows ref w
  · have hle : concessionCountF tbl rows ref w ≤ deliveryCountF rows ref w :=
      List.countP_le_length _
    simpa [concessionRateF, h] using unit_div hle
  · simp [concessionRateF, h]

/-- Contact success rate lies in `[0, 1]`. -/
lemma contactRate_unit (tbl : EventTable) (rows : List Event) (ref : Int) :
    0 ≤ (contactOf tbl rows ref).1 ∧ (contactOf tbl rows ref).1 ≤ 1 := by
  by_cases h1 : tbl.hasContactMade
  · by_cases h2 : (windowRows rows ref 30).length = 0
    · simp [contactOf, h1, h2]
    · have hle : ((windowRows rows ref 30).map (fun e => e.contact_made.getD false)).countP id ≤
          ((windowRows rows ref 30).map (fun e => e.contact_made.getD false)).length :=
        List.countP_le_length _
      simp only [List.length_map] at hle
      simpa [contactOf, h1, h2] using unit_div hle
  · simp [contactOf, h1]

/-- The three time-pattern shares lie in `[0, 1]`. -/
lemma timeShares_unit (tbl : EventTable) (rows : List Event) (ref : Int) :
    (0 ≤ (timePatternsOf tbl rows ref).1 ∧ (timePatternsOf tbl rows ref).1 ≤ 1) ∧
    (0 ≤ (timePatternsOf tbl rows ref).2.1 ∧ (timePatternsOf tbl rows ref).2.1 ≤ 1) ∧
    (0 ≤ (timePatternsOf tbl rows ref).2.2.1 ∧ (timePatternsOf tbl rows ref).2.2.1 ≤ 1) := by
  by_cases h : ((windowRows rows ref 30).filter (isConcession tbl)).length = 0
  · simp [timePatternsOf, h]
  · refine ⟨?_, ?_, ?_⟩ <;>
      simpa [timePatternsOf, h] using unit_div (List.countP_le_length _)

/-- Concession type shares lie in `[0, 1]`. -/
lemma pctTypeOf_unit (tbl : EventTable) (rows : List Event) (ref : Int)
    (t : String) : 0 ≤ pctTypeOf tbl rows ref t ∧ pctTypeOf tbl rows ref t ≤ 1 := by
  by_cases h1 : tbl.hasConcessionType
  · by_cases h2 : t ∈ concessionTypes
    · by_cases h3 : ((windowRows rows ref 30).filter (isConcession tbl)).length = 0
      · simp [pctTypeOf, h1, h2, h3]
      · simpa [pctTypeOf, h1, h2, h3] using unit_div (List.countP_le_length _)
    · simp [pctTypeOf, h1, h2]
  · simp [pctTypeOf, h1]

/-- C2: every rate feature of a `transform` output row lies in the closed
interval `[0, 1]` — the per-window `concession_rate_{w}d`, the contact
success rate, the morning/evening/weekend shares and the per-type shares —
and a window with zero deliveries yields a zero concession rate. -/
theorem c2_rates_in_unit_interval (tbl : EventTable) (ref : Int)
    (drivers : List String) (d : String) (f : DriverFeatures) (w : ℕ) (t : String)
    (hmem : (d, f) ∈ transform tbl ref drivers) :
    (0 ≤ f.concessionRate w ∧ f.concessionRate w ≤ 1) ∧
    (0 ≤ f.contactSuccessRate ∧ f.contactSuccessRate ≤ 1) ∧
    (0 ≤ f.morningPeakShare ∧ f.morningPeakShare ≤ 1) ∧
    (0 ≤ f.eveningPeakShare ∧ f.eveningPeakShare ≤ 1) ∧
    (0 ≤ f.weekendShare ∧ f.weekendShare ≤ 1) ∧
    (0 ≤ f.pctType t ∧ f.pctType t ≤ 1) ∧
    (f.deliveryCount w = 0 → f.concessionRate w = 0) := by
  have hf := mem_transform hmem
  subst hf
  simp only [featuresFor, computeDriverFeatures]
  refine ⟨concessionRateF_unit _ _ _ _, contactRate_unit _ _ _,
    (timeShares_unit _ _ _).1, (timeShares_unit _ _ _).2.1,
    (timeShares_unit _ _ _).2.2, pctTypeOf_unit _ _ _ _, fun h => ?_⟩
  unfold concessionRateF
  simp [h]

/-- Witness for C2: the concrete window 7 of `c1Tbl`'s driver has one
delivery, and an empty window 7 for an absent driver gives rate 0. -/
theorem c2_witness :
    (0 ≤ (featuresFor c1Tbl "B" 0).concessionRate 7 ∧
      (featuresFor c1Tbl "B" 0).concessionRate 7 ≤ 1) ∧
    (featuresFor c1Tbl "B" 0).concessionRate 7 = 0 := by
  have h := c2_rates_in_unit_interval c1Tbl 0 ["B"] "B"
    (featuresFor c1Tbl "B" 0) 7 "neighbor" (by simp [transform])
  exact ⟨h.1, h.2.2.2.2.2.2 (by decide)⟩

/-! ### C5: effect of input row order -/

/-- Concession flags agree between tables with equal column flags. -/
lemma isConcession_congr {tA tB : EventTable}
    (hc : tA.hasConcessionType = tB.hasConcessionType) :
    isConcession tA = isConcession tB := by
  funext e
  unfold isConcession
  rw [hc]

/-- Amended C5: the per-window historical features (delivery count,
concession count, concession rate) of every driver are invariant under any
permutation of the input rows — the window aggregation is a pure multiset
count.  (The contact-scan features are not: see the counterexample.) -/
theorem c5_amended_window_features_perm_invariant (tA tB : EventTable)
    (hp : tA.rows.Perm tB.rows) (hc : tA.hasConcessionType = tB.hasConcessionType)
    (d : String) (ref : Int) (w : ℕ) :
    (featuresFor tA d ref).deliveryCount w = (featuresFor tB d ref).deliveryCount w ∧
    (featuresFor tA d ref).concessionCount w = (featuresFor tB d ref).concessionCount w ∧
    (featuresFor tA d ref).concessionRate w = (featuresFor tB d ref).concessionRate w := by
  have hdp : (driverRows tA d).Perm (driverRows tB d) := hp.filter _
  have hwp : (windowRows (driverRows tA d) ref w).Perm (windowRows (driverRows tB d) ref w) :=
    hdp.filter _
  have hd : deliveryCountF (driverRows tA d) ref w = deliveryCountF (driverRows tB d) ref w :=
    hwp.length_eq
  have hcc : concessionCountF tA (driverRows tA d) ref w =
      concessionCountF tB (driverRows tB d) ref w := by
    unfold concessionCountF
    rw [isConcession_congr hc]
    exact hwp.countP_eq _
  refine ⟨hd, hcc, ?_⟩
  simp only [featuresFor, computeDriverFeatures]
  unfold concessionRateF
  rw [hd, hcc]

/-- Witness table for the amended C5. -/
def c5wTbl : EventTable :=
  ⟨[⟨"A", 0, some "neighbor", none, none⟩, ⟨"A", 50, none, none, none⟩], true, false⟩

/-- Witness table for the amended C5: the same rows, swapped. -/
def c5wTblSwap : EventTable :=
  ⟨[⟨"A", 50, none, none, none⟩, ⟨"A", 0, some "neighbor", none, none⟩], true, false⟩

/-- Witness: the amended C5 at a concrete two-row table and its swap. -/
theorem c5_amended_witness :
    (featuresFor c5wTbl "A" 100).deliveryCount 7 =
      (featuresFor c5wTblSwap "A" 100).deliveryCount 7 ∧
    (featuresFor c5wTbl "A" 100).concessionCount 7 =
      (featuresFor c5wTblSwap "A" 100).concessionCount 7 ∧
    (featuresFor c5wTbl "A" 100).concessionRate 7 =
      (featuresFor c5wTblSwap "A" 100).concessionRate 7 :=
  c5_amended_window_features_perm_invariant c5wTbl c5wTblSwap
    (List.Perm.swap _ _ _) rfl "A" 100 7

/-- Counterexample table for C5: driver D's contacts in order
true, false, false. -/
def c5Tbl : EventTable :=
  ⟨[⟨"D", 0, none, some true, none⟩, ⟨"D", 100, none, some false, none⟩,
    ⟨"D", 200, none, some false, none⟩], true, true⟩

/-- Counterexample table for C5: the same multiset of rows in the order
false, true, false. -/
def c5TblPerm : EventTable :=
  ⟨[⟨"D", 100, none, some false, none⟩, ⟨"D", 0, none, some true, none⟩,
    ⟨"D", 200, none, some false, none⟩], true, true⟩

/-- Counterexample to C5: permuting the input rows changes the
`no_contact_streak_max` feature (2 versus 1) and hence the output of
`transform` — the streak scan of `_compute_contact_features` walks the rows
in input order, never sorting them chronologically. -/
theorem c5_counterexample_row_order_sensitivity :
    c5Tbl.rows.Perm c5TblPerm.rows ∧
    (featuresFor c5Tbl "D" 1000).noContactStreakMax = 2 ∧
    (featuresFor c5TblPerm "D" 1000).noContactStreakMax = 1 ∧
    transform c5Tbl 1000 ["D"] ≠ transform c5TblPerm 1000 ["D"] := by
  refine ⟨List.Perm.swap _ _ _, by decide, by decide, fun h => ?_⟩
  have h2 : featuresFor c5Tbl "D" 1000 = featuresFor c5TblPerm "D" 1000 := by
    have := List.head_eq_of_cons_eq h
    exact congrArg Prod.snd this
  have h3 : (featuresFor c5Tbl "D" 1000).noContactStreakMax =
      (featuresFor c5TblPerm "D" 1000).noContactStreakMax := congrArg _ h2
  rw [show (featuresFor c5Tbl "D" 1000).noContactStreakMax = 2 from by decide,
    show (featuresFor c5TblPerm "D" 1000).noContactStreakMax = 1 from by decide] at h3
  exact absurd h3 (by decide)

/-! ### C9: drivers with no events get the default feature row -/

/-- C9: requesting a driver that matches no event row does not fail;
`transform` still emits a row for that driver in which every count and rate
feature is 0, the modal weekday is 0 and the modal hour defaults to 12. -/
theorem c9_missing_driver_default_row (tbl : EventTable) (ref : Int) (d : String)
    (h : ∀ e ∈ tbl.rows, e.transporter_id ≠ d) :
    transform tbl ref [d] = [(d, defaultFeatures)] := by
  have hdr : driverRows tbl d = [] := by
    refine List.filter_eq_nil_iff.mpr (fun e he => ?_)
    simpa using h e he
  have hwin : ∀ w : ℕ, windowRows (driverRows tbl d) ref w = [] := by
    intro w
    rw [hdr]
    rfl
  have hfeat : featuresFor tbl d ref = defaultFeatures := by
    unfold featuresFor computeDriverFeatures defaultFeatures
    simp only [DriverFeatures.mk.injEq]
    refine ⟨?_, ?_, ?_, ?_, ?_, ?_, ?_, ?_, ?_, ?_, ?_, ?_, ?_, ?_, ?_, ?_, ?_, ?_, ?_⟩
    · funext w
      simp [concessionRateF, concessionCountF, deliveryCountF, hwin w]
    · funext w
      simp [concessionCountF, hwin w]
    · funext w
      simp [deliveryCountF, hwin w]
    · simp [performanceOf, hwin 30]
    · simp [performanceOf, hwin 30]
    · simp [performanceOf, hwin 30]
    · by_cases hc : tbl.hasContactMade <;> simp [contactOf, hc, hwin 30]
    · by_cases hc : tbl.hasContactMade <;> simp [contactOf, hc, hwin 30]
    · by_cases hc : tbl.hasContactMade <;> simp [contactOf, hc, hwin 30]
    · simp [timePatternsOf, hwin 30]
    · simp [timePatternsOf, hwin 30]
    · simp [timePatternsOf, hwin 30]
    · simp [timePatternsOf, hwin 30]
    · simp [timePatternsOf, hwin 30]
    · simp [trendOf, hwin 60]
    · simp [trendOf, hwin 60]
    · simp [trendOf, hwin 60]
    · simp [trendOf, hwin 60]
    · funext t
      by_cases h1 : tbl.hasConcessionType <;>
        by_cases h2 : t ∈ concessionTypes <;>
          simp [pctTypeOf, h1, h2, hwin 30]
  unfold transform
  rw [List.map_cons, List.map_nil, hfeat]

/-- Witness table for C9: one row for driver A only. -/
def c9Tbl : EventTable :=
  ⟨[⟨"A", 0, some "neighbor", some true, none⟩], true, true⟩

/-- Witness: C9 at a concrete table and an absent driver. -/
theorem c9_witness : transform c9Tbl 100 ["ZZZ"] = [("ZZZ", defaultFeatures)] :=
  c9_missing_driver_default_row c9Tbl 100 "ZZZ" (by decide)

/-! ### C10: the 10-row minimum precedes the 5-concession minimum -/

/-- C10: `detect_time_patterns` returns the empty list whenever the table
(after the optional per-driver filter) holds fewer than 10 rows — the total
row minimum is tested before the concession minimum, so even 5 or more
concessions cannot produce a pattern. -/
theorem c10_row_minimum_checked_first (tbl : EventTable) (tid : Option String)
    (h : (filteredRows tbl tid).length < 10) :
    detectTimePatterns tbl tid = [] := by
  unfold detectTimePatterns
  simp [h]

/-- Witness table for C10: nine rows, all of them concessions. -/
def c10Tbl : EventTable :=
  ⟨[⟨"A", 0, some "neighbor", none, none⟩, ⟨"A", 1440, some "neighbor", none, none⟩,
    ⟨"A", 2880, some "neighbor", none, none⟩, ⟨"A", 4320, some "neighbor", none, none⟩,
    ⟨"A", 5760, some "neighbor", none, none⟩, ⟨"A", 7200, some "neighbor", none, none⟩,
    ⟨"A", 8640, some "neighbor", none, none⟩, ⟨"A", 10080, some "neighbor", none, none⟩,
    ⟨"A", 11520, some "neighbor", none, none⟩], true, false⟩

/-- Witness: nine rows with six or more concessions still give no pattern. -/
theorem c10_witness :
    (filteredRows c10Tbl none).length < 10 ∧
    5 ≤ c10Tbl.rows.countP (isConcession c10Tbl) ∧
    detectTimePatterns c10Tbl none = [] :=
  ⟨by decide, by decide, c10_row_minimum_checked_first c10Tbl none (by decide)⟩

/-! ### C3: predict's schema handling -/

/-- Counterexample model for C3: trained on columns a, b. -/
def c3Model : TrainedModel := ⟨["a", "b"], [], [], true⟩

/-- Counterexample to C3: an input whose column set strictly contains the
trained feature names is accepted — `X[self.feature_names]` silently drops
the extra column `c` (and normalises the order) instead of failing. -/
theorem c3_counterexample_extra_column_accepted :
    predictSchema c3Model ["a", "b", "c"] = Except.ok ["a", "b"] ∧
    "c" ∉ c3Model.featureNames := by
  constructor
  · rfl
  · decide

/-- Amended C3: `predict` fails on a schema mismatch only when some trained
feature name is missing from the input's columns (the pandas `KeyError` of
`X[self.feature_names]`); when every trained name is present the call
succeeds with the trained names in training order, silently dropping extra
columns and reordering. -/
theorem c3_amended_missing_column_only (m : TrainedModel) (cols : List String)
    (ht : m.isTrained = true) :
    ((∀ n ∈ m.featureNames, n ∈ cols) → predictSchema m cols = Except.ok m.featureNames) ∧
    ((∃ n ∈ m.featureNames, n ∉ cols) →
      predictSchema m cols = Except.error PredictError.missingColumn) := by
  have hstep : predictSchema m cols =
      match selectColumns m.featureNames cols with
      | some ordered => Except.ok ordered
      | none => Except.error PredictError.missingColumn := by
    unfold predictSchema
    rw [ht]
    simp
  constructor
  · intro hall
    rw [hstep]
    unfold selectColumns
    rw [if_pos hall]
  · rintro ⟨n, hn, hnc⟩
    rw [hstep]
    unfold selectColumns
    rw [if_neg (fun hall => hnc (hall n hn))]

/-- Witness: the amended C3 at a reordered input with an extra column. -/
theorem c3_amended_witness :
    predictSchema c3Model ["b", "a", "c"] = Except.ok ["a", "b"] :=
  (c3_amended_missing_column_only c3Model ["b", "a", "c"] rfl).1 (by decide)

/-! ### C4: no label-diversity error in train -/

/-- Counterexample to C4: a single-class label vector (all `true`) makes
`train` fail with the generic library `ValueError`, not with the dedicated
label-diversity error the claim names — no `LabelDiversityError` exists
anywhere in the repository, and `train`'s own body performs no label check
that could raise one. -/
theorem c4_counterexample_single_class_generic_error :
    trainModel ["f1"] [[0], [1], [2], [3]] [true, true, true, true] =
      Except.error TrainError.singleClassLibraryError ∧
    TrainError.singleClassLibraryError ≠ TrainError.labelDiversity ∧
    (∀ b ∈ [true, true, true, true], b = true) := by
  refine ⟨?_, by decide, by decide⟩
  rfl

/-- Amended C4: `DriverRiskModel.train` never raises a label-diversity
error — no `LabelDiversityError` exists in the repository and the body of
`train` performs no label validation of its own; a label vector with fewer
than two distinct classes instead fails inside the external library calls
with a generic error, before `is_trained` is ever set (the caller
`risk_dashboard` separately avoids single-class labels by checking
`labels.nunique() < 2` before training). -/
theorem c4_amended_no_label_diversity_error (cols : List String)
    (x : List (List ℚ)) (y : List Bool) :
    trainModel cols x y ≠ Except.error TrainError.labelDiversity ∧
    (y.dedup.length < 2 →
      trainModel cols x y = Except.error TrainError.singleClassLibraryError) := by
  constructor
  · unfold trainModel
    split_ifs
    · intro hc
      injection hc with h2
      exact TrainError.noConfusion h2
    · intro hc
      exact Except.noConfusion hc
  · intro h
    unfold trainModel
    rw [if_pos h]

/-- Witness: the amended C4 at a concrete two-row single-class input. -/
theorem c4_amended_witness :
    trainModel ["f"] [[1], [2]] [false, false] =
      Except.error TrainError.singleClassLibraryError ∧
    trainModel ["f"] [[1], [2]] [false, false] ≠ Except.error TrainError.labelDiversity :=
  ⟨(c4_amended_no_label_diversity_error ["f"] [[1], [2]] [false, false]).2 (by decide),
    (c4_amended_no_label_diversity_error ["f"] [[1], [2]] [false, false]).1⟩

/-! ### C6: the high-frequency firing threshold -/

/-- Multi-driver patterns never carry the high-frequency type. -/
lemma mdPatterns_no_hf (tbl : EventTable) (g : List Event) :
    ((mdPatterns tbl g).any fun p => p.ptype == "high_frequency") = false := by
  unfold mdPatterns
  split_ifs <;>
    simp [show (("multi_driver" : String) == "high_frequency") = false from by decide]

/-- Same-day repeat patterns never carry the high-frequency type. -/
lemma rpPatterns_no_hf (tbl : EventTable) (g : List Event) :
    ((rpPatterns tbl g).any fun p => p.ptype == "high_frequency") = false := by
  unfold rpPatterns
  split_ifs <;>
    simp [show (("repeat_concession" : String) == "high_frequency") = false from by decide]

/-- The high-frequency block fires iff rate ≥ 0.50 with ≥ 3 concessions. -/
lemma hfPatterns_fires_iff (tbl : EventTable) (g : List Event) :
    (((hfPatterns tbl g).any fun p => p.ptype == "high_frequency") = true ↔
      ((1 / 2 : ℚ) ≤ (g.countP (isConcession tbl) : ℚ) / (g.length : ℚ) ∧
        3 ≤ g.countP (isConcession tbl))) := by
  unfold hfPatterns
  by_cases h : (1 / 2 : ℚ) ≤ (g.countP (isConcession tbl) : ℚ) / (g.length : ℚ) ∧
      3 ≤ g.countP (isConcession tbl)
  · rw [if_pos h]
    exact iff_of_true (by simp) h
  · rw [if_neg h]
    exact iff_of_false (by simp) h

/-- Counterexample table for C6: ten single-driver events at one location,
four of them concessions — rate 0.40 ≥ 0.30 with ≥ 3 positives. -/
def c6Tbl : EventTable :=
  ⟨[⟨"A", 0, none, none, some "L"⟩, ⟨"A", 1440, none, none, some "L"⟩,
    ⟨"A", 2880, none, none, some "L"⟩, ⟨"A", 4320, none, none, some "L"⟩,
    ⟨"A", 5760, none, none, some "L"⟩, ⟨"A", 7200, none, none, some "L"⟩,
    ⟨"A", 8640, some "neighbor", none, some "L"⟩, ⟨"A", 10080, some "neighbor", none, some "L"⟩,
    ⟨"A", 11520, some "neighbor", none, some "L"⟩, ⟨"A", 12960, some "neighbor", none, some "L"⟩],
    true, false⟩

/-- Counterexample to C6: a location with 10 analyzed events, 4 concessions
(rate 0.40 ≥ 0.30, with ≥ 3 positives) fires no pattern at all — the
high-frequency block tests `critical_concession_threshold` (0.50), not the
claimed 0.30. -/
theorem c6_counterexample_rate_forty_no_pattern :
    c6Tbl.rows.length = 10 ∧
    c6Tbl.rows.countP (isConcession c6Tbl) = 4 ∧
    (3 / 10 : ℚ) ≤ (c6Tbl.rows.countP (isConcession c6Tbl) : ℚ) / (c6Tbl.rows.length : ℚ) ∧
    analyzeAddress c6Tbl c6Tbl.rows = some (abuseScoreOf c6Tbl c6Tbl.rows, []) := by
  have hconc : c6Tbl.rows.countP (isConcession c6Tbl) = 4 := by decide
  have hlen : c6Tbl.rows.length = 10 := by decide
  refine ⟨hlen, hconc, ?_, ?_⟩
  · rw [hconc, hlen]
    norm_num
  · have hpat : addressPatterns c6Tbl c6Tbl.rows = [] := by
      unfold addressPatterns hfPatterns mdPatterns rpPatterns
      rw [hconc, hlen]
      rw [if_neg (by norm_num), if_neg ?_, if_neg ?_] <;>
        first
          | rfl
          | · have h1 : uniqueDrivers c6Tbl.rows = 1 := by decide
              have h2 : ((c6Tbl.rows.filter (isConcession c6Tbl)).map Event.day).dedup.length = 4 := by
                decide
              have h3 : ((c6Tbl.rows.filter (isConcession c6Tbl)).map Event.day).length = 4 := by
                decide
              omega
    unfold analyzeAddress
    rw [if_neg (by omega), hpat]

/-- Amended C6: for every location with at least 3 analyzed events, the
high-frequency pattern fires iff the concession rate is ≥ 0.50 (the
source's `critical_concession_threshold`, not the claimed 0.30) with at
least 3 concessions; the part of the claim about severity is as stated —
the fired pattern is critical iff the rate is ≥ 0.70. -/
theorem c6_amended_high_frequency_at_half (tbl : EventTable) (g : List Event)
    (h3 : 3 ≤ g.length) :
    analyzeAddress tbl g = some (abuseScoreOf tbl g, addressPatterns tbl g) ∧
    (((addressPatterns tbl g).any fun p => p.ptype == "high_frequency") = true ↔
      ((1 / 2 : ℚ) ≤ (g.countP (isConcession tbl) : ℚ) / (g.length : ℚ) ∧
        3 ≤ g.countP (isConcession tbl))) ∧
    (∀ p ∈ addressPatterns tbl g, p.ptype = "high_frequency" →
      (p.severity = "critical" ↔
        (7 / 10 : ℚ) ≤ (g.countP (isConcession tbl) : ℚ) / (g.length : ℚ))) := by
  refine ⟨by unfold analyzeAddress; rw [if_neg (by omega)], ?_, ?_⟩
  · unfold addressPatterns
    rw [List.any_append, List.any_append, mdPatterns_no_hf, rpPatterns_no_hf]
    simpa using hfPatterns_fires_iff tbl g
  · intro p hp htype
    unfold addressPatterns at hp
    rcases List.mem_append.mp hp with hp' | hrp
    · rcases List.mem_append.mp hp' with hhf | hmd
      · unfold hfPatterns at hhf
        by_cases hc : (1 / 2 : ℚ) ≤ (g.countP (isConcession tbl) : ℚ) / (g.length : ℚ) ∧
            3 ≤ g.countP (isConcession tbl)
        · rw [if_pos hc] at hhf
          have hpeq := List.mem_singleton.mp hhf
          subst hpeq
          by_cases h7 : (7 / 10 : ℚ) ≤ (g.countP (isConcession tbl) : ℚ) / (g.length : ℚ)
          · simp [h7]
          · simp [h7]
        · rw [if_neg hc] at hhf
          cases hhf
      · exfalso
        have hmd' : p.ptype = "multi_driver" := by
          unfold mdPatterns at hmd
          revert hmd
          split_ifs <;> intro hmd <;> simp_all
        rw [htype] at hmd'
        exact absurd hmd' (by decide)
    · exfalso
      have hrp' : p.ptype = "repeat_concession" := by
        unfold rpPatterns at hrp
        revert hrp
        split_ifs <;> intro hrp <;> simp_all
      rw [htype] at hrp'
      exact absurd hrp' (by decide)

/-- Witness table for the amended C6: three events, all concessions. -/
def c6wTbl : EventTable :=
  ⟨[⟨"A", 0, some "neighbor", none, some "L"⟩, ⟨"A", 1440, some "neighbor", none, some "L"⟩,
    ⟨"B", 2880, some "neighbor", none, some "L"⟩], true, false⟩

/-- Witness: the amended C6 fires the high-frequency flag at a location
whose rate is 1.0 with three concessions. -/
theorem c6_amended_witness :
    ((addressPatterns c6wTbl c6wTbl.rows).any fun p => p.ptype == "high_frequency") = true := by
  have h := (c6_amended_high_frequency_at_half c6wTbl c6wTbl.rows (by decide)).2.1
  apply h.mpr
  have hconc : c6wTbl.rows.countP (isConcession c6wTbl) = 3 := by decide
  have hlen : c6wTbl.rows.length = 3 := by decide
  rw [hconc, hlen]
  norm_num

/-! ### C7: abuse score with zero concessions -/

/-- Counterexample table for C7: three events by three distinct drivers at
one location, none of them a concession. -/
def c7Tbl : EventTable :=
  ⟨[⟨"A", 0, none, none, some "L"⟩, ⟨"B", 1440, none, none, some "L"⟩,
    ⟨"C", 2880, none, none, some "L"⟩], true, false⟩

/-- Counterexample to C7: a location with zero concession events but three
distinct drivers gets `abuse_score = 20`, not 0 — the multi-driver
contribution `min((unique_drivers - 1) * 10, 20)` is added regardless of
the concession count. -/
theorem c7_counterexample_zero_positive_nonzero_score :
    c7Tbl.rows.countP (isConcession c7Tbl) = 0 ∧
    analyzeAddress c7Tbl c7Tbl.rows = some (20, []) ∧
    (20 : ℚ) ≠ 0 := by
  have hconc : c7Tbl.rows.countP (isConcession c7Tbl) = 0 := by decide
  have hu : uniqueDrivers c7Tbl.rows = 3 := by decide
  have hfil : c7Tbl.rows.filter (isConcession c7Tbl) = [] := by decide
  refine ⟨hconc, ?_, by norm_num⟩
  have hscore : abuseScoreOf c7Tbl c7Tbl.rows = 20 := by
    unfold abuseScoreOf concTypeVals
    rw [hconc, hu, hfil]
    norm_num [min_def]
  have hpat : addressPatterns c7Tbl c7Tbl.rows = [] := by
    unfold addressPatterns hfPatterns mdPatterns rpPatterns
    rw [hconc, hfil]
    norm_num
  unfold analyzeAddress
  rw [if_neg (by decide), hscore, hpat]

/-- Amended C7: for every analyzed location with zero concession events the
abuse score equals `min((unique_drivers - 1) * 10, 20)` — exactly 0 only
when a single distinct driver delivered there; every other contribution
(rate, count, type concentration) vanishes. -/
theorem c7_amended_zero_positive_score (tbl : EventTable) (g : List Event)
    (h0 : g.countP (isConcession tbl) = 0) (h3 : 3 ≤ g.length) :
    analyzeAddress tbl g =
      some (min (((uniqueDrivers g : ℚ) - 1) * 10) 20, addressPatterns tbl g) := by
  have hfil : g.filter (isConcession tbl) = [] :=
    List.filter_eq_nil_iff.mpr (by simpa using List.countP_eq_zero.mp h0)
  have hscore : abuseScoreOf tbl g = min (((uniqueDrivers g : ℚ) - 1) * 10) 20 := by
    have hmin : min (((uniqueDrivers g : ℚ) - 1) * 10) 20 ≤ 100 :=
      le_trans (min_le_right _ _) (by norm_num)
    unfold abuseScoreOf concTypeVals
    rw [h0, hfil]
    simp only [Nat.cast_zero, zero_div, zero_mul, List.filterMap_nil, List.isEmpty_nil,
      if_true, zero_add, add_zero]
    rw [min_eq_left (by norm_num : (0 : ℚ) ≤ 40), min_eq_left (by norm_num : (0 : ℚ) ≤ 20)]
    simp only [zero_add, add_zero]
    exact min_eq_left hmin
  unfold analyzeAddress
  rw [if_neg (by omega), hscore]

/-- Witness table for the amended C7: three events of one driver, no
concessions. -/
def c7wTbl : EventTable :=
  ⟨[⟨"A", 0, none, none, some "L"⟩, ⟨"A", 1440, none, none, some "L"⟩,
    ⟨"A", 2880, none, none, some "L"⟩], true, false⟩

/-- Witness: the amended C7 at a single-driver location gives score 0. -/
theorem c7_amended_witness :
    analyzeAddress c7wTbl c7wTbl.rows = some (0, addressPatterns c7wTbl c7wTbl.rows) := by
  have h := c7_amended_zero_positive_score c7wTbl c7wTbl.rows (by decide) (by decide)
  have hu : uniqueDrivers c7wTbl.rows = 1 := by decide
  rw [hu] at h
  norm_num at h
  exact h

/-! ### C8: contamination 0 flags nobody -/

/-- In a `≤`-sorted list, every element is at most the entry at the last
index. -/
lemma le_getD_last_of_sorted :
    ∀ (l : List ℚ), l.Sorted (· ≤ ·) → ∀ a ∈ l, a ≤ l.getD (l.length - 1) 0 := by
  intro l
  induction l with
  | nil => intro _ a ha; cases ha
  | cons x xs ih =>
    intro hs a ha
    rw [List.sorted_cons] at hs
    cases xs with
    | nil =>
      have hax : a = x := by simpa using ha
      subst hax
      simp [List.getD]
    | cons y ys =>
      have hgd : (x :: y :: ys).getD ((x :: y :: ys).length - 1) 0 =
          (y :: ys).getD ((y :: ys).length - 1) 0 := by
        simp [List.getD_cons_succ]
      rw [hgd]
      rcases List.mem_cons.mp ha with rfl | hmem
      · have hlt : (y :: ys).length - 1 < (y :: ys).length := by simp
        rw [List.getD_eq_getElem _ _ hlt]
        exact hs.1 _ (List.getElem_mem hlt)
      · exact ih hs.2 a hmem

/-- Every member of a nonempty list is at most its quantile at `q = 1` (the
maximum): the interpolation position is exactly the last index and the
fractional part vanishes. -/
lemma le_quantile_one (l : List ℚ) (hne : l ≠ []) {a : ℚ} (ha : a ∈ l) :
    a ≤ quantileQ l 1 := by
  have hn : 1 ≤ l.length := List.length_pos.mpr hne
  have hpos : ((l.length : ℚ) - 1) * 1 = ((l.length - 1 : ℕ) : ℚ) := by
    rw [Nat.cast_sub hn]
    ring
  have hidx : quantileIdx l 1 = l.length - 1 := by
    unfold quantileIdx
    rw [hpos, Int.floor_natCast, Int.toNat_natCast]
  have hg : ((l.length : ℚ) - 1) * 1 - (quantileIdx l 1 : ℚ) = 0 := by
    rw [hidx, hpos, sub_self]
  unfold quantileQ
  rw [hg, zero_mul, add_zero, hidx]
  have hsort : (List.insertionSort (· ≤ ·) l).Sorted (· ≤ ·) :=
    List.sorted_insertionSort (· ≤ ·) l
  have hmem : a ∈ List.insertionSort (· ≤ ·) l :=
    ((List.perm_insertionSort (· ≤ ·) l).mem_iff).mpr ha
  have hlen : (List.insertionSort (· ≤ ·) l).length = l.length :=
    (List.perm_insertionSort (· ≤ ·) l).length_eq
  have := le_getD_last_of_sorted _ hsort a hmem
  rwa [hlen] at this

/-- C8: `detect_anomalies` with contamination 0 returns the empty list for
every feature table — the threshold becomes the population maximum of the
anomaly scores and the strictly-greater comparison flags no row. -/
theorem c8_contamination_zero_empty (ft : FeatureTable) :
    detectAnomalies ft 0 = [] := by
  unfold detectAnomalies
  by_cases h10 : ft.data.length < 10
  · rw [if_pos h10]
  · rw [if_neg h10]
    by_cases hc : ft.ncols = 0
    · rw [if_pos hc]
    · rw [if_neg hc]
      refine List.filterMap_eq_nil_iff.mpr (fun p hp => ?_)
      obtain ⟨pid, ps⟩ := p
      have hsc : ps ∈ anomalyScores ft := (List.of_mem_zip hp).2
      have hne : anomalyScores ft ≠ [] := by
        refine List.length_pos.mp ?_
        unfold anomalyScores
        rw [List.length_map]
        omega
      have hle : ps ≤ anomalyThreshold ft 0 := by
        unfold anomalyThreshold
        rw [sub_zero]
        exact le_quantile_one _ hne hsc
      simp [not_lt.mpr hle]

end LTSQM
